import Mathlib

/-!
Shallow embedding of `CalculatorEngine` from `src/calculator_1.py`.

The engine keeps three fields (`history`, `memory`, `last_result`) and its
`evaluate` method rewrites the input string by a fixed sequence of textual
substitutions (lower-casing; replacing `π`/`pi`/`e` by decimal constants;
regex-rewriting `sqrt( … )` to `math.sqrt( … )` and likewise for
`sin`/`cos`/`tan`/`log`/`ln`; replacing `^` by `**`; replacing `ans` by
`str(last_result)` and `m` by `str(memory)`) and then feeds the rewritten
string to Python's `eval` with globals `{"__builtins__": None}` and locals
`{"math": math}`.  On success the rewritten string and the result are
appended to `history` and `last_result` is updated; any exception is caught
and re-raised as `ValueError("Invalid expression: …")`, leaving the state
untouched.

Modelling decisions:
* Strings are `List Char`; Python `str.replace` and the `re.sub` passes are
  embedded character-exactly (left-to-right, non-overlapping, the lazy group
  `(.*?)\)` matching up to the first `)`).
* Python ints and floats are both modelled as `ℚ` (exact arithmetic).  Every
  numeric value exercised by the claims is a small integer or an exactly
  representable decimal, where IEEE-754 double arithmetic agrees with `ℚ`.
* `eval` is modelled by a tokenizer / recursive-descent parser / evaluator
  for the arithmetic sublanguage actually reachable here: numeric literals,
  `+ - * / % **`, unary `-`/`+` and parentheses, with Python's precedence
  and associativity (`**` right-associative and binding tighter than unary
  minus on its left).  A bare identifier makes evaluation fail (in the real
  code an identifier either fails to parse next to a number, is undefined
  under the restricted namespace, or would need the `math.` prefix — which
  the `m`-substitution always corrupts), and any character outside this
  sublanguage is a failure as well.  Python `eval` additionally accepts
  constructs (comparisons, tuples, …) that no claim exercises; no theorem
  below asserts success of an input beyond the modelled sublanguage.
* Python exceptions are the `PyError` tags below; the single surfaced error
  is `CalcError.invalidExpression`, mirroring the `raise ValueError(...)`.
-/

/-- Exceptions that can arise inside the `try` block of `evaluate`.
`parseError` models `SyntaxError` (lexing or parsing failure);
`nameError` models `NameError` (an identifier that does not resolve in the
restricted namespace); `zeroDivisionError` models `ZeroDivisionError`;
`mathDomainError` models the `ValueError: math domain error` that
`math.sqrt`/`math.log` raise on out-of-domain arguments (unreachable in this
code, because the `m`-substitution corrupts every `math.` prefix before
`eval` runs); `floatPowError` marks a non-integer exponent, whose
real-valued power lies outside the rational model (no claim exercises it). -/
inductive PyError where
  | parseError
  | nameError
  | zeroDivisionError
  | mathDomainError
  | floatPowError
  deriving DecidableEq, Repr

/-- The single error surfaced by `CalculatorEngine.evaluate`: every inner
exception is caught and re-raised as `ValueError("Invalid expression: …")`;
the payload records the underlying exception (standing for the formatted
message text). -/
inductive CalcError where
  | invalidExpression (cause : PyError)
  deriving DecidableEq, Repr

/-- The text of `str(math.pi)` in Python: the 17-significant-digit decimal. -/
def piChars : List Char := ("3.141592653589793").data

/-- The text of `str(math.e)` in Python. -/
def eChars : List Char := ("2.718281828459045").data

/-- One step bound is enough: each scan step consumes at least one char. -/
def pyReplaceF (pat rep : List Char) : Nat → List Char → List Char
  | 0, l => l
  | _ + 1, [] => []
  | fuel + 1, c :: rest =>
    if pat ≠ [] ∧ pat.isPrefixOf (c :: rest) then
      rep ++ pyReplaceF pat rep fuel ((c :: rest).drop pat.length)
    else
      c :: pyReplaceF pat rep fuel rest

/-- Python `str.replace(pat, rep)`: replaces every non-overlapping
occurrence left to right; the replacement text is not rescanned. -/
def pyReplace (pat rep l : List Char) : List Char :=
  pyReplaceF pat rep (l.length + 1) l

/-- Split a list at its first `)`: returns the part before it and the part
after it (the `)` itself dropped), or `none` when no `)` occurs.  This is
what the lazy regex group `(.*?)\)` matches. -/
def findCloseSplit : List Char → Option (List Char × List Char)
  | [] => none
  | c :: rest =>
    if c = ')' then some ([], rest)
    else
      match findCloseSplit rest with
      | some p => some (c :: p.1, p.2)
      | none => none

/-- Fuelled scanner for one `re.sub(name + r'\((.*?)\)', rep + r'(\1)', s)`
pass: at each position, if `name ++ "("` is a prefix and a `)` follows, the
match `name ( inner )` is rewritten to `rep ( inner )` and scanning resumes
after the `)` of the original string; otherwise move one char right. -/
def reSubF (nm rep : List Char) : Nat → List Char → List Char
  | 0, l => l
  | _ + 1, [] => []
  | fuel + 1, c :: rest =>
    if (nm ++ [Char.ofNat 40]).isPrefixOf (c :: rest) then
      match findCloseSplit ((c :: rest).drop (nm.length + 1)) with
      | some p => rep ++ Char.ofNat 40 :: (p.1 ++ Char.ofNat 41 :: reSubF nm rep fuel p.2)
      | none => c :: reSubF nm rep fuel rest
    else
      c :: reSubF nm rep fuel rest

/-- One regex rewrite pass, e.g. `re.sub(r'sqrt\((.*?)\)', r'math.sqrt(\1)', s)`. -/
def reSub (nm rep l : List Char) : List Char :=
  reSubF nm rep (l.length + 1) l

/-- Decimal digit value accumulator. -/
def digitsVal (l : List Char) : Nat :=
  l.foldl (fun a c => a * 10 + (c.toNat - 48)) 0

/-- Rational-number operations written through `Rat.divInt`, which the
kernel can evaluate (the ambient field operations on `ℚ` are declared
irreducible); each is proved equal to the corresponding field operation in
the bridge lemmas below. -/
def qAdd (a b : ℚ) : ℚ := Rat.divInt (a.num * b.den + b.num * a.den) (a.den * b.den)

/-- Subtraction on `ℚ` via `Rat.divInt`; equals `a - b`. -/
def qSub (a b : ℚ) : ℚ := Rat.divInt (a.num * b.den - b.num * a.den) (a.den * b.den)

/-- Multiplication on `ℚ` via `Rat.divInt`; equals `a * b`. -/
def qMul (a b : ℚ) : ℚ := Rat.divInt (a.num * b.num) (a.den * b.den)

/-- Division on `ℚ` via `Rat.divInt`; equals `a / b` (both are 0 at `b = 0`,
though the evaluator only applies it to a nonzero divisor). -/
def qDiv (a b : ℚ) : ℚ := Rat.divInt (a.num * b.den) (a.den * b.num)

/-- Negation on `ℚ` via `Rat.divInt`; equals `-a`. -/
def qNeg (a : ℚ) : ℚ := Rat.divInt (-a.num) a.den

/-- Power with a natural exponent, by repeated multiplication; equals `a ^ n`. -/
def qPowNat (a : ℚ) : Nat → ℚ
  | 0 => 1
  | n + 1 => qMul a (qPowNat a n)

/-- Floor of a rational (`den` is positive, so Euclidean division of the
numerator rounds toward negative infinity); equals `⌊a⌋`. -/
def qFloor (a : ℚ) : Int := a.num.ediv a.den

/-- Python's modulo: `a - b * floor(a / b)` (callers exclude `b = 0`). -/
def qMod (a b : ℚ) : ℚ := qSub a (qMul b (Rat.divInt (qFloor (qDiv a b)) 1))

/-- Value of a numeric literal with integer part `ip` and fractional part
`fp`: `(ip * 10 ^ k + fp) / 10 ^ k` for `k` fractional digits. -/
def numVal (ip fp : List Char) : ℚ :=
  mkRat (Int.ofNat (digitsVal ip * 10 ^ fp.length + digitsVal fp)) (10 ^ fp.length)

/-- Tokens of the modelled `eval` sublanguage. -/
inductive Tok where
  | num (q : ℚ)
  | binop (c : Char)
  | powOp
  | lparen
  | rparen
  | ident (s : List Char)
  deriving DecidableEq, Repr

/-- Is this character a continuation character of a Python identifier? -/
def identChar (c : Char) : Bool :=
  c.isAlpha || c.isDigit || c = '_'

/-- Fuelled tokenizer for the reachable sublanguage of Python expressions:
numbers (`12`, `12.5`, `.5`, `5.`), identifiers, `+ - * / % .` and `**`,
parentheses; spaces and tabs are skipped; any other character is a
`SyntaxError`. -/
def tokenizeF : Nat → List Char → Except PyError (List Tok)
  | 0, _ => .error .parseError
  | _ + 1, [] => .ok []
  | fuel + 1, c :: cs =>
    if c = ' ' ∨ c = '\t' then tokenizeF fuel cs
    else if c.isDigit ∨ (c = '.' ∧ (cs.headD ' ').isDigit) then
      let ip := (c :: cs).takeWhile Char.isDigit
      let rest1 := (c :: cs).dropWhile Char.isDigit
      match rest1 with
      | '.' :: cs2 =>
        let fp := cs2.takeWhile Char.isDigit
        let rest2 := cs2.dropWhile Char.isDigit
        (tokenizeF fuel rest2).map (fun ts => .num (numVal ip fp) :: ts)
      | _ => (tokenizeF fuel rest1).map (fun ts => .num (numVal ip []) :: ts)
    else if c.isAlpha ∨ c = '_' then
      let nm := (c :: cs).takeWhile identChar
      let rest := (c :: cs).dropWhile identChar
      (tokenizeF fuel rest).map (fun ts => .ident nm :: ts)
    else if c = '*' then
      match cs with
      | '*' :: cs2 => (tokenizeF fuel cs2).map (fun ts => .powOp :: ts)
      | _ => (tokenizeF fuel cs).map (fun ts => .binop '*' :: ts)
    else if c = '+' ∨ c = '-' ∨ c = '/' ∨ c = '%' ∨ c = '.' then
      (tokenizeF fuel cs).map (fun ts => .binop c :: ts)
    else if c = '(' then
      (tokenizeF fuel cs).map (fun ts => .lparen :: ts)
    else if c = ')' then
      (tokenizeF fuel cs).map (fun ts => .rparen :: ts)
    else .error .parseError

/-- Tokenize a whole string (each scan step consumes at least one char). -/
def tokenize (l : List Char) : Except PyError (List Tok) :=
  tokenizeF (l.length + 1) l

/-- AST of the modelled Python expression sublanguage. -/
inductive PExpr where
  | lit (q : ℚ)
  | neg (a : PExpr)
  | add (a b : PExpr)
  | sub (a b : PExpr)
  | mul (a b : PExpr)
  | div (a b : PExpr)
  | mod (a b : PExpr)
  | pow (a b : PExpr)
  deriving DecidableEq, Repr

/-- Selector for the grammar production being parsed; carrying the
left-associative accumulator for the two chain loops. -/
inductive PMode where
  | sumM
  | sumLoopM (a : PExpr)
  | prodM
  | prodLoopM (a : PExpr)
  | unaryM
  | powM
  | atomM

/-- Fuelled recursive-descent parser for the modelled Python expression
grammar, lowest to highest binding:
`expr := term (('+'|'-') term)*` (left-associative),
`term := unary (('*'|'/'|'%') unary)*` (left-associative),
`unary := '-' unary | '+' unary | power` (Python's u_expr),
`power := atom ('**' unary)?` (right-associative; `-2**2` is `-(2**2)`),
`atom := number | '(' expr ')'`.
A bare identifier fails: under the restricted namespace an identifier
either does not resolve (`NameError`) or would need the `math.` prefix,
which the `m`-substitution always corrupts. -/
def parseStep : Nat → PMode → List Tok → Except PyError (PExpr × List Tok)
  | 0, _, _ => .error .parseError
  | fuel + 1, .sumM, ts => do
    let (a, ts1) ← parseStep fuel .prodM ts
    parseStep fuel (.sumLoopM a) ts1
  | fuel + 1, .sumLoopM a, ts =>
    match ts with
    | .binop '+' :: ts1 => do
      let (b, ts2) ← parseStep fuel .prodM ts1
      parseStep fuel (.sumLoopM (.add a b)) ts2
    | .binop '-' :: ts1 => do
      let (b, ts2) ← parseStep fuel .prodM ts1
      parseStep fuel (.sumLoopM (.sub a b)) ts2
    | _ => .ok (a, ts)
  | fuel + 1, .prodM, ts => do
    let (a, ts1) ← parseStep fuel .unaryM ts
    parseStep fuel (.prodLoopM a) ts1
  | fuel + 1, .prodLoopM a, ts =>
    match ts with
    | .binop '*' :: ts1 => do
      let (b, ts2) ← parseStep fuel .unaryM ts1
      parseStep fuel (.prodLoopM (.mul a b)) ts2
    | .binop '/' :: ts1 => do
      let (b, ts2) ← parseStep fuel .unaryM ts1
      parseStep fuel (.prodLoopM (.div a b)) ts2
    | .binop '%' :: ts1 => do
      let (b, ts2) ← parseStep fuel .unaryM ts1
      parseStep fuel (.prodLoopM (.mod a b)) ts2
    | _ => .ok (a, ts)
  | fuel + 1, .unaryM, ts =>
    match ts with
    | .binop '-' :: ts1 => (parseStep fuel .unaryM ts1).map (fun p => (.neg p.1, p.2))
    | .binop '+' :: ts1 => parseStep fuel .unaryM ts1
    | _ => parseStep fuel .powM ts
  | fuel + 1, .powM, ts => do
    let (a, ts1) ← parseStep fuel .atomM ts
    match ts1 with
    | .powOp :: ts2 => do
      let (b, ts3) ← parseStep fuel .unaryM ts2
      .ok (.pow a b, ts3)
    | _ => .ok (a, ts1)
  | fuel + 1, .atomM, ts =>
    match ts with
    | .num q :: ts1 => .ok (.lit q, ts1)
    | .lparen :: ts1 => do
      let (a, ts2) ← parseStep fuel .sumM ts1
      match ts2 with
      | .rparen :: ts3 => .ok (a, ts3)
      | _ => .error .parseError
    | .ident _ :: _ => .error .nameError
    | _ => .error .parseError

/-- Python `**` on rationals: integer exponents are exact (`0 ** n` with
`n < 0` raises `ZeroDivisionError`); a non-integer exponent would be a
real-valued power, outside the rational model. -/
def pyPow (a b : ℚ) : Except PyError ℚ :=
  if b.den = 1 then
    if 0 ≤ b.num then .ok (qPowNat a b.num.toNat)
    else if a = 0 then .error .zeroDivisionError
    else .ok (qDiv 1 (qPowNat a (- b.num).toNat))
  else .error .floatPowError

/-- Evaluate an AST with Python's runtime semantics: `/` and `%` raise
`ZeroDivisionError` on a zero divisor (`%` is `a - b * floor(a / b)`). -/
def evalP : PExpr → Except PyError ℚ
  | .lit q => .ok q
  | .neg a => (evalP a).map qNeg
  | .add a b => do
    let x ← evalP a
    let y ← evalP b
    .ok (qAdd x y)
  | .sub a b => do
    let x ← evalP a
    let y ← evalP b
    .ok (qSub x y)
  | .mul a b => do
    let x ← evalP a
    let y ← evalP b
    .ok (qMul x y)
  | .div a b => do
    let x ← evalP a
    let y ← evalP b
    if y = 0 then .error .zeroDivisionError else .ok (qDiv x y)
  | .mod a b => do
    let x ← evalP a
    let y ← evalP b
    if y = 0 then .error .zeroDivisionError
    else .ok (qMod x y)
  | .pow a b => do
    let x ← evalP a
    let y ← evalP b
    pyPow x y

/-- Model of `eval(expression, {"__builtins__": None}, {"math": math})` on
the reachable sublanguage: compile (tokenize, parse, reject trailing
tokens) and only then evaluate, as Python does. -/
def pyEval (l : List Char) : Except PyError ℚ := do
  let ts ← tokenize l
  let (a, rest) ← parseStep (4 * ts.length + 8) .sumM ts
  match rest with
  | [] => evalP a
  | _ => .error .parseError

/-- The engine's state: `self.history`, `self.memory`, `self.last_result`
(history entries are the post-substitution expression text paired with the
result, exactly what line 62 of the source appends). -/
structure CalculatorEngine where
  history : List (List Char × ℚ)
  memory : ℚ
  last_result : ℚ
  deriving DecidableEq, Repr

/-- Model of `CalculatorEngine.__init__`: empty history, memory 0, last result 0. -/
def calcInit : CalculatorEngine := ⟨[], 0, 0⟩

/-- Decimal digits of an integer, as Python's `str` renders it. -/
def intChars (n : Int) : List Char := (toString n).data

/-- Model of `str(x)` for a stored number.  Every value the claims exercise is an
integer, where Python's `str` of the stored `int` is the plain digit string;
a non-integral value (a float in Python, printed as its shortest round-trip
decimal) is rendered as an exact parenthesized fraction, which re-parses to
the same rational in this model. -/
def pyNumChars (q : ℚ) : List Char :=
  if q.den = 1 then intChars q.num
  else Char.ofNat 40 :: (intChars q.num ++ Char.ofNat 47 :: (intChars (q.den : Int) ++ [Char.ofNat 41]))

/-- Lines 33–53 of `evaluate`: lower-case, then the textual substitution
passes in source order — `π`, `pi`, `e`, the six function regexes,
`^` → `**`, `ans` → `str(last_result)`, and finally `m` → `str(memory)`. -/
def preprocessed (eng : CalculatorEngine) (x : List Char) : List Char :=
  let e1 := x.map Char.toLower
  let e2 := pyReplace (['π']) piChars e1
  let e3 := pyReplace (("pi").data) piChars e2
  let e4 := pyReplace (['e']) eChars e3
  let e5 := reSub (("sqrt").data) (("math.sqrt").data) e4
  let e6 := reSub (("sin").data) (("math.sin").data) e5
  let e7 := reSub (("cos").data) (("math.cos").data) e6
  let e8 := reSub (("tan").data) (("math.tan").data) e7
  let e9 := reSub (("log").data) (("math.log10").data) e8
  let e10 := reSub (("ln").data) (("math.log").data) e9
  let e11 := pyReplace (['^']) (("**").data) e10
  let e12 := pyReplace (("ans").data) (pyNumChars eng.last_result) e11
  pyReplace (['m']) (pyNumChars eng.memory) e12

/-- Model of `CalculatorEngine.evaluate`: rewrite, then `eval`; on success append
`(rewritten, result)` to history and set `last_result`; on any exception
re-raise `ValueError` and leave the state untouched. -/
def evaluate (eng : CalculatorEngine) (x : List Char) : Except CalcError ℚ × CalculatorEngine :=
  match pyEval (preprocessed eng x) with
  | .ok r => (.ok r, { eng with history := eng.history ++ [(preprocessed eng x, r)], last_result := r })
  | .error e => (.error (.invalidExpression e), eng)

/-- Model of `CalculatorEngine.store_in_memory`. -/
def store_in_memory (eng : CalculatorEngine) (v : ℚ) : CalculatorEngine :=
  { eng with memory := v }

/-- Model of `CalculatorEngine.add_to_memory` (`self.memory += value`, written with
the kernel-reducible addition `qAdd`, which equals `+` by `qAdd_eq`). -/
def add_to_memory (eng : CalculatorEngine) (v : ℚ) : CalculatorEngine :=
  { eng with memory := qAdd eng.memory v }

/-- Model of `CalculatorEngine.subtract_from_memory` (`self.memory -= value`). -/
def subtract_from_memory (eng : CalculatorEngine) (v : ℚ) : CalculatorEngine :=
  { eng with memory := qSub eng.memory v }

/-- Model of `CalculatorEngine.clear_memory`. -/
def clear_memory (eng : CalculatorEngine) : CalculatorEngine :=
  { eng with memory := 0 }

/-- Model of `CalculatorEngine.get_memory`. -/
def get_memory (eng : CalculatorEngine) : ℚ := eng.memory

/-- Model of `CalculatorEngine.get_history`. -/
def get_history (eng : CalculatorEngine) : List (List Char × ℚ) := eng.history

/-- Model of `CalculatorEngine.clear_history`. -/
def clear_history (eng : CalculatorEngine) : CalculatorEngine :=
  { eng with history := [] }

/-- Modelled from the spec (claim C6): the characters of the recognized
token set — digits and the decimal point, the letters of the six built-in
function names, the operators `+ - * / ^`, parentheses, and spaces. -/
def specRecognizedChar (c : Char) : Bool :=
  c.isDigit || c = '.' || c = '+' || c = '-' || c = '*' || c = '/' || c = '^' ||
  c = '(' || c = ')' || c = ' ' || (("sqrtincoalg").data).contains c

-- Equality of `eval` outcomes is decidable (needed to evaluate the
-- concrete test inputs below).
deriving instance DecidableEq for Except

/-- Bridge: `qAdd` is rational addition. -/
theorem qAdd_eq (a b : ℚ) : qAdd a b = a + b := by
  rw [qAdd, Rat.divInt_eq_div]
  push_cast
  conv_rhs => rw [← Rat.num_div_den a, ← Rat.num_div_den b]
  rw [div_add_div _ _ (by exact_mod_cast a.den_nz) (by exact_mod_cast b.den_nz)]
  ring_nf

/-- Bridge: `qSub` is rational subtraction. -/
theorem qSub_eq (a b : ℚ) : qSub a b = a - b := by
  rw [qSub, Rat.divInt_eq_div]
  push_cast
  conv_rhs => rw [← Rat.num_div_den a, ← Rat.num_div_den b]
  rw [div_sub_div _ _ (by exact_mod_cast a.den_nz) (by exact_mod_cast b.den_nz)]
  ring_nf

/-- Bridge: `qMul` is rational multiplication. -/
theorem qMul_eq (a b : ℚ) : qMul a b = a * b := by
  rw [qMul, Rat.divInt_eq_div]
  push_cast
  conv_rhs => rw [← Rat.num_div_den a, ← Rat.num_div_den b]
  rw [div_mul_div_comm]

/-- Bridge: `qNeg` is rational negation. -/
theorem qNeg_eq (a : ℚ) : qNeg a = -a := by
  rw [qNeg, Rat.divInt_eq_div]
  push_cast
  conv_rhs => rw [← Rat.num_div_den a]
  rw [neg_div]

/-- Bridge: `qDiv` is rational division (both sides are 0 when `b = 0`). -/
theorem qDiv_eq (a b : ℚ) : qDiv a b = a / b := by
  rw [qDiv, Rat.divInt_eq_div]
  push_cast
  conv_rhs => rw [← Rat.num_div_den a, ← Rat.num_div_den b]
  simp only [div_eq_mul_inv, mul_inv, inv_inv]
  ring

/-- Bridge: `qPowNat` is the natural-number power on `ℚ`. -/
theorem qPowNat_eq (a : ℚ) (n : ℕ) : qPowNat a n = a ^ n := by
  induction n with
  | zero => simp [qPowNat]
  | succ k ih => rw [qPowNat, ih, qMul_eq, pow_succ, mul_comm]

/-- Bridge: `qFloor` is the floor function on `ℚ`. -/
theorem qFloor_eq (a : ℚ) : qFloor a = Int.floor a := by
  rw [Rat.floor_def, qFloor]
  rfl


/-- Helper: unpacking a successful `evaluate` call — the new state appends
exactly one history entry (the rewritten text with the result), keeps
`memory`, and sets `last_result` to the result. -/
theorem evaluate_ok_state (eng eng' : CalculatorEngine) (x : List Char) (r : ℚ)
    (h : evaluate eng x = (.ok r, eng')) :
    eng'.history = eng.history ++ [(preprocessed eng x, r)] ∧
    eng'.memory = eng.memory ∧ eng'.last_result = r := by
  unfold evaluate at h
  cases hE : pyEval (preprocessed eng x) <;> simp_all
  obtain ⟨h1, h2⟩ := h
  subst h2
  simp [h1]

/-- C1: whenever any stage of evaluation fails, `evaluate` surfaces the
error to the caller and returns the session state unchanged — history,
memory and last_result all keep their previous values. -/
theorem c1_error_preserves_state (eng : CalculatorEngine) (x : List Char) (err : CalcError)
    (h : (evaluate eng x).fst = .error err) : (evaluate eng x).snd = eng := by
  unfold evaluate at h ⊢
  cases hE : pyEval (preprocessed eng x) <;> simp_all

/-- C1 witness: `evaluate` on `"1/0"` fails and leaves the fresh state
unchanged; calling it twice leaves `history` of length 0 both times. -/
theorem c1_witness :
    (evaluate calcInit (("1/0").data)).fst = .error (.invalidExpression .zeroDivisionError) ∧
    (evaluate calcInit (("1/0").data)).snd = calcInit ∧
    (evaluate ((evaluate calcInit (("1/0").data)).snd) (("1/0").data)).snd.history.length = 0 :=
  ⟨by decide,
   c1_error_preserves_state calcInit (("1/0").data)
     (.invalidExpression .zeroDivisionError) (by decide),
   by decide⟩

/-- C2: the code contradicts the claim — `"sqrt(4)"` never evaluates to
`2.0`: the rewrite inserts `math.sqrt(4)` and the later substitution of
`m` by `str(memory)` corrupts it to `0ath.sqrt(4)` (with memory 0), which
fails to parse, so `evaluate` raises instead of returning 2. -/
theorem c2_sqrt_corrupted_by_memory_substitution :
    preprocessed calcInit (("sqrt(4)").data) = ("0ath.sqrt(4)").data ∧
    (evaluate calcInit (("sqrt(4)").data)).fst = .error (.invalidExpression .parseError) := by
  decide

/-- C3 counterexample: `"sqrt(-1)"` does fail, but not with a domain
error — the `m`-substitution corrupts `math.sqrt` before any domain check
can run, so the underlying exception is a syntax failure. -/
theorem c3_counterexample :
    (evaluate calcInit (("sqrt(-1)").data)).fst = .error (.invalidExpression .parseError) ∧
    PyError.parseError ≠ PyError.mathDomainError := by
  decide

/-- C3 amended: `"sqrt(-1)"`, `"1/0"`, `"log(-1)"` and `"ln(-1)"` all fail
(`"1/0"` with an underlying `ZeroDivisionError`, never producing infinity;
the function calls with an underlying syntax failure caused by the
`m`-substitution), every failure is surfaced as the single wrapped
`ValueError`, and none of them mutates the session state. -/
theorem c3_amended_failures :
    ((evaluate calcInit (("sqrt(-1)").data)).fst = .error (.invalidExpression .parseError) ∧
      (evaluate calcInit (("sqrt(-1)").data)).snd = calcInit) ∧
    ((evaluate calcInit (("1/0").data)).fst = .error (.invalidExpression .zeroDivisionError) ∧
      (evaluate calcInit (("1/0").data)).snd = calcInit) ∧
    ((evaluate calcInit (("log(-1)").data)).fst = .error (.invalidExpression .parseError) ∧
      (evaluate calcInit (("log(-1)").data)).snd = calcInit) ∧
    ((evaluate calcInit (("ln(-1)").data)).fst = .error (.invalidExpression .parseError) ∧
      (evaluate calcInit (("ln(-1)").data)).snd = calcInit) := by
  decide

/-- C4 counterexample: `"2^2"` succeeds with result 4, but the history
entry stores the rewritten text `"2**2"`, not the caller's raw `"2^2"`. -/
theorem c4_counterexample :
    (evaluate calcInit (("2^2").data)).fst = .ok 4 ∧
    (evaluate calcInit (("2^2").data)).snd.history = [((("2**2").data), 4)] ∧
    (evaluate calcInit (("2^2").data)).snd.history ≠ [((("2^2").data), 4)] := by
  decide

/-- C4 amended: on success `evaluate` appends exactly one history entry —
the post-substitution expression text paired with the result — sets
`last_result` to the result, and returns it; for a single numeric literal
the rewrite is the identity, so the entry is `(x_as_text, x)`. -/
theorem c4_amended_success_updates (eng : CalculatorEngine) (x : List Char) (r : ℚ)
    (h : pyEval (preprocessed eng x) = .ok r) :
    evaluate eng x =
      (.ok r, { eng with history := eng.history ++ [(preprocessed eng x, r)], last_result := r }) := by
  unfold evaluate
  rw [h]

/-- C4 witness: the single numeric literal `"7"` evaluates to 7 and appends
exactly the entry `("7", 7)`. -/
theorem c4_witness :
    evaluate calcInit (("7").data) =
      (.ok 7, { history := [((("7").data), 7)], memory := 0, last_result := 7 }) := by
  rw [c4_amended_success_updates calcInit (("7").data) 7 (by decide)]
  decide

/-- C5: precedence and associativity — `"2 + 3 * 4"` gives 14,
`"(2 + 3) * 4"` gives 20, and `"2 ^ 3 ^ 2"` is right-associative,
giving 2 ^ (3 ^ 2) = 512. -/
theorem c5_precedence :
    (evaluate calcInit (("2 + 3 * 4").data)).fst = .ok 14 ∧
    (evaluate calcInit (("(2 + 3) * 4").data)).fst = .ok 20 ∧
    (evaluate calcInit (("2 ^ 3 ^ 2").data)).fst = .ok 512 := by
  decide

/-- C6 counterexample: `'%'` lies outside the recognized character set of
the claim, yet `"5%3"` does not fail — it evaluates to 2 and appends a
history entry, because the code performs no lexical validation of its own. -/
theorem c6_counterexample :
    specRecognizedChar '%' = false ∧ ('%' ∈ ("5%3").data) ∧
    (evaluate calcInit (("5%3").data)).fst = .ok 2 ∧
    (evaluate calcInit (("5%3").data)).snd.history.length = 1 := by
  decide

/-- C6 amended: the code has no lexer of its own — characters outside the
stated set can be accepted (`"5%3"` evaluates to 2), and inputs that are
rejected, such as the implicit multiplication `"2sin(x)"`, fail with the
single wrapped `ValueError` (there is no `LexError` taxonomy). -/
theorem c6_amended_no_lex_check :
    (evaluate calcInit (("5%3").data)).fst = .ok 2 ∧
    (evaluate calcInit (("2sin(x)").data)).fst = .error (.invalidExpression .parseError) := by
  decide

/-- C7: the memory operations always succeed with the stated semantics on
every state; concretely, after storing 5 in memory, `"m + 1"` evaluates to
6; adding 2 to memory afterwards makes `get_memory` return 7; and
`clear_memory` resets it to 0. -/
theorem c7_memory_ops :
    (∀ (eng : CalculatorEngine) (v : ℚ),
      get_memory (store_in_memory eng v) = v ∧
      get_memory (add_to_memory eng v) = eng.memory + v ∧
      get_memory (subtract_from_memory eng v) = eng.memory - v ∧
      get_memory (clear_memory eng) = 0) ∧
    (evaluate (store_in_memory calcInit 5) (("m + 1").data)).fst = .ok 6 ∧
    get_memory (add_to_memory ((evaluate (store_in_memory calcInit 5) (("m + 1").data)).snd) 2) = 7 ∧
    get_memory (clear_memory (add_to_memory ((evaluate (store_in_memory calcInit 5) (("m + 1").data)).snd) 2)) = 0 := by
  refine ⟨fun eng v => ⟨rfl, qAdd_eq _ _, qSub_eq _ _, rfl⟩, ?_, ?_, ?_⟩ <;> decide

/-- C8: `ans` is substituted with `last_result` — evaluating `"2 + 2"`
yields 4, after which `"ans * 10"` is rewritten to `"4 * 10"` and yields
40. -/
theorem c8_ans_chaining :
    (evaluate calcInit (("2 + 2").data)).fst = .ok 4 ∧
    (evaluate ((evaluate calcInit (("2 + 2").data)).snd) (("ans * 10").data)).fst = .ok 40 := by
  decide

/-- C9: three successful evaluations starting from an empty history leave
exactly three history entries in call order; history only grows by
appending; `clear_history` empties it without touching memory. -/
theorem c9_history_append_order (eng eng1 eng2 eng3 : CalculatorEngine)
    (x1 x2 x3 : List Char) (r1 r2 r3 : ℚ)
    (h0 : eng.history = [])
    (h1 : evaluate eng x1 = (.ok r1, eng1))
    (h2 : evaluate eng1 x2 = (.ok r2, eng2))
    (h3 : evaluate eng2 x3 = (.ok r3, eng3)) :
    get_history eng3 =
      [(preprocessed eng x1, r1), (preprocessed eng1 x2, r2), (preprocessed eng2 x3, r3)] ∧
    (get_history eng3).length = 3 ∧
    get_history (clear_history eng3) = [] ∧
    get_memory (clear_history eng3) = get_memory eng3 := by
  obtain ⟨a1, m1, l1⟩ := evaluate_ok_state eng eng1 x1 r1 h1
  obtain ⟨a2, m2, l2⟩ := evaluate_ok_state eng1 eng2 x2 r2 h2
  obtain ⟨a3, m3, l3⟩ := evaluate_ok_state eng2 eng3 x3 r3 h3
  refine ⟨?_, ?_, rfl, rfl⟩ <;> simp [get_history, a3, a2, a1, h0]

/-- C9 witness: evaluating `"1"`, `"2"`, `"3"` in order from a fresh engine
leaves a history of length 3, and `clear_history` then empties it. -/
theorem c9_witness :
    (get_history ((evaluate ((evaluate ((evaluate calcInit (("1").data)).snd) (("2").data)).snd) (("3").data)).snd)).length = 3 ∧
    get_history (clear_history ((evaluate ((evaluate ((evaluate calcInit (("1").data)).snd) (("2").data)).snd) (("3").data)).snd)) = [] := by
  have h := c9_history_append_order calcInit
    ((evaluate calcInit (("1").data)).snd)
    ((evaluate ((evaluate calcInit (("1").data)).snd) (("2").data)).snd)
    ((evaluate ((evaluate ((evaluate calcInit (("1").data)).snd) (("2").data)).snd) (("3").data)).snd)
    (("1").data) (("2").data) (("3").data) 1 2 3 rfl (by decide) (by decide) (by decide)
  exact ⟨h.2.1, h.2.2.1⟩

/-- C10: each memory operation modifies only the `memory` field — for every
starting state and argument, `history` and `last_result` are unchanged by
`store_in_memory`, `add_to_memory`, `subtract_from_memory`, `clear_memory`. -/
theorem c10_memory_ops_frame (eng : CalculatorEngine) (v : ℚ) :
    (get_history (store_in_memory eng v) = get_history eng ∧
      (store_in_memory eng v).last_result = eng.last_result) ∧
    (get_history (add_to_memory eng v) = get_history eng ∧
      (add_to_memory eng v).last_result = eng.last_result) ∧
    (get_history (subtract_from_memory eng v) = get_history eng ∧
      (subtract_from_memory eng v).last_result = eng.last_result) ∧
    (get_history (clear_memory eng) = get_history eng ∧
      (clear_memory eng).last_result = eng.last_result) :=
  ⟨⟨rfl, rfl⟩, ⟨rfl, rfl⟩, ⟨rfl, rfl⟩, ⟨rfl, rfl⟩⟩
